import Mathlib

/-!
Shallow embedding of the three game engines of `telegram_gaming_bot`
(`games/snake.py`, `games/tetris.py`, `games/ping_pong.py`).

Python `random` draws are passed in explicitly (a list or stream of drawn
values), matching the spec's "randomness as state" design: the drawn outcome
is the input, never a generator.  Python dictionaries returned by the public
operations are modelled by small structures holding the same keys.

Snake body cells and food cells are Python values that can be either tuples
(built by the live engine) or lists (produced by `json.loads` on restore);
Python `==` never identifies a tuple with a list, so the embedding keeps the
two forms distinct in `PyCell` and models `in` by `pyMem`.
-/

/-- Result dictionary of a public snake or pong operation: its `success` and
`message` keys. -/
structure MoveResult where
  success : Bool
  message : String
  deriving DecidableEq, Repr

/-- The four grid directions used by the snake engine (and the paddle
directions of the pong engine). -/
inductive Dir where
  | up
  | down
  | left
  | right
  deriving DecidableEq, Repr

/-- The `opposite_directions` dictionary of `snake.py`. -/
def Dir.opposite : Dir → Dir
  | .up => .down
  | .down => .up
  | .left => .right
  | .right => .left

/-- Rendering of a direction inside result messages. -/
def Dir.str : Dir → String
  | .up => "up"
  | .down => "down"
  | .left => "left"
  | .right => "right"

/-- A Python value holding a 2-d cell: either a tuple `(x, y)` (as built by the
running engine) or a list `[x, y]` (as produced by `json.loads`).  Python `==`
never equates a tuple with a list. -/
inductive PyCell where
  | tup (x y : Int)
  | lst (x y : Int)
  deriving DecidableEq, Repr

/-- First coordinate (tuple/list unpacking `x, y = cell`). -/
def PyCell.x : PyCell → Int
  | .tup a _ => a
  | .lst a _ => a

/-- Second coordinate (tuple/list unpacking `x, y = cell`). -/
def PyCell.y : PyCell → Int
  | .tup _ b => b
  | .lst _ b => b

/-- Python `==` on cells: tuples compare with tuples, lists with lists, and a
tuple is never equal to a list. -/
def pyEq : PyCell → PyCell → Bool
  | .tup a b, .tup c d => a == c && b == d
  | .lst a b, .lst c d => a == c && b == d
  | _, _ => false

/-- Python `cell in xs` membership, using Python equality. -/
def pyMem (c : PyCell) (l : List PyCell) : Bool :=
  l.any (pyEq c)

/-- Python `xs.remove(cell)`: drop the first element equal to the cell. -/
def pyRemoveFirst (c : PyCell) : List PyCell → List PyCell
  | [] => []
  | d :: ds => if pyEq c d then ds else d :: pyRemoveFirst c ds

/-- State of `SnakeGame` (`snake.py`): every mutable attribute set by
`reset_game` and restored by `from_json`. -/
structure SnakeGame where
  session_id : String
  player1_id : Int
  player2_id : Int
  player1_snake : List PyCell
  player2_snake : List PyCell
  player1_direction : Dir
  player2_direction : Dir
  player1_score : Int
  player2_score : Int
  player1_alive : Bool
  player2_alive : Bool
  food_positions : List PyCell
  turn_count : Int
  game_over : Bool
  winner : Option Int
  deriving DecidableEq, Repr

namespace SnakeGame

/-- Board width fixed in `__init__`. -/
def board_width : Int := 15

/-- Board height fixed in `__init__`. -/
def board_height : Int := 15

/-- `SnakeGame.is_valid_position`: inside the board boundaries. -/
def is_valid_position (x y : Int) : Bool :=
  decide (0 ≤ x) && decide (x < board_height) && decide (0 ≤ y) && decide (y < board_width)

/-- `SnakeGame.move_snake`: change the acting player's stored heading, unless
the game is over, the player is eliminated, or the request is the direct
reverse of the stored heading. -/
def move_snake (s : SnakeGame) (player_id : Int) (direction : Dir) :
    SnakeGame × MoveResult :=
  if s.game_over then (s, ⟨false, "Game is over"⟩)
  else if player_id == s.player1_id then
    if !s.player1_alive then (s, ⟨false, "Player 1 is eliminated"⟩)
    else if direction == s.player1_direction.opposite then
      (s, ⟨false, "Cannot reverse direction"⟩)
    else
      ({s with player1_direction := direction},
       ⟨true, "Direction changed to " ++ direction.str⟩)
  else if player_id == s.player2_id then
    if !s.player2_alive then (s, ⟨false, "Player 2 is eliminated"⟩)
    else if direction == s.player2_direction.opposite then
      (s, ⟨false, "Cannot reverse direction"⟩)
    else
      ({s with player2_direction := direction},
       ⟨true, "Direction changed to " ++ direction.str⟩)
  else (s, ⟨false, "Invalid player"⟩)

/-- Prospective head cell one grid step from the given head in the given
direction (the `new_head` computation of `move_player_snake`); the engine
always builds it as a Python tuple. -/
def newHead (direction : Dir) (head : PyCell) : PyCell :=
  match direction with
  | .up => .tup (head.x - 1) head.y
  | .down => .tup (head.x + 1) head.y
  | .left => .tup head.x (head.y - 1)
  | .right => .tup head.x (head.y + 1)

/-- Bounded retry loop of `SnakeGame.spawn_food`; `draws` supplies the random
`(x, y)` candidates in order.  Returns the updated game and the unused
draws. -/
def spawnFoodAux (s : SnakeGame) : Nat → List (Int × Int) → SnakeGame × List (Int × Int)
  | 0, ds => (s, ds)
  | _ + 1, [] => (s, [])
  | n + 1, (x, y) :: ds =>
    if !pyMem (.tup x y) s.player1_snake && !pyMem (.tup x y) s.player2_snake &&
        !pyMem (.tup x y) s.food_positions then
      ({s with food_positions := s.food_positions ++ [PyCell.tup x y]}, ds)
    else spawnFoodAux s n ds

/-- `SnakeGame.spawn_food` with its `max_attempts = 50` bound. -/
def spawn_food (s : SnakeGame) (draws : List (Int × Int)) :
    SnakeGame × List (Int × Int) :=
  spawnFoodAux s 50 draws

/-- First element of a snake body (`snake[0]`); the body is never empty in the
running engine. -/
def headCell (l : List PyCell) : PyCell := l.headD (.tup 0 0)

/-- `SnakeGame.move_player_snake`: move one snake one step along its stored
heading, eliminating it on a wall, self or opponent collision (checked in that
order and leaving the body unchanged), otherwise prepending the new head and
handling food. -/
def move_player_snake (s : SnakeGame) (player_id : Int) (draws : List (Int × Int)) :
    SnakeGame × MoveResult × List (Int × Int) :=
  if player_id == s.player1_id then
    let snake := s.player1_snake
    let nh := newHead s.player1_direction (headCell snake)
    if !is_valid_position nh.x nh.y then
      ({s with player1_alive := false}, ⟨false, "Hit wall - eliminated!"⟩, draws)
    else if pyMem nh snake then
      ({s with player1_alive := false}, ⟨false, "Hit self - eliminated!"⟩, draws)
    else if pyMem nh s.player2_snake then
      ({s with player1_alive := false}, ⟨false, "Hit opponent - eliminated!"⟩, draws)
    else
      let grown := nh :: snake
      if pyMem nh s.food_positions then
        let s1 := {s with player1_snake := grown,
                          food_positions := pyRemoveFirst nh s.food_positions,
                          player1_score := s.player1_score + 10}
        let (s2, ds2) := spawn_food s1 draws
        (s2, ⟨true, "Moved and ate food (+10 points)"⟩, ds2)
      else
        ({s with player1_snake := grown.dropLast}, ⟨true, "Moved"⟩, draws)
  else if player_id == s.player2_id then
    let snake := s.player2_snake
    let nh := newHead s.player2_direction (headCell snake)
    if !is_valid_position nh.x nh.y then
      ({s with player2_alive := false}, ⟨false, "Hit wall - eliminated!"⟩, draws)
    else if pyMem nh snake then
      ({s with player2_alive := false}, ⟨false, "Hit self - eliminated!"⟩, draws)
    else if pyMem nh s.player1_snake then
      ({s with player2_alive := false}, ⟨false, "Hit opponent - eliminated!"⟩, draws)
    else
      let grown := nh :: snake
      if pyMem nh s.food_positions then
        let s1 := {s with player2_snake := grown,
                          food_positions := pyRemoveFirst nh s.food_positions,
                          player2_score := s.player2_score + 10}
        let (s2, ds2) := spawn_food s1 draws
        (s2, ⟨true, "Moved and ate food (+10 points)"⟩, ds2)
      else
        ({s with player2_snake := grown.dropLast}, ⟨true, "Moved"⟩, draws)
  else (s, ⟨false, "Invalid player"⟩, draws)

/-- `SnakeGame.check_game_over`: terminal detection by eliminations, then the
200-turn cap with the score-based winner (or tie). -/
def check_game_over (s : SnakeGame) : SnakeGame :=
  let s1 :=
    if !s.player1_alive && !s.player2_alive then
      {s with game_over := true,
              winner :=
                if s.player1_score > s.player2_score then some s.player1_id
                else if s.player2_score > s.player1_score then some s.player2_id
                else none}
    else if !s.player1_alive then {s with game_over := true, winner := some s.player2_id}
    else if !s.player2_alive then {s with game_over := true, winner := some s.player1_id}
    else s
  if s1.turn_count ≥ 200 then
    {s1 with game_over := true,
             winner :=
               if s1.player1_score > s1.player2_score then some s1.player1_id
               else if s1.player2_score > s1.player1_score then some s1.player2_id
               else none}
  else s1

/-- `SnakeGame.update_game_state` (one tick): move player 1's snake if alive,
then player 2's snake on the updated state, then run `check_game_over` and
increment `turn_count`. -/
def update_game_state (s : SnakeGame) (draws : List (Int × Int)) :
    SnakeGame × MoveResult :=
  if s.game_over then (s, ⟨false, "Game is over"⟩)
  else
    let step1 :=
      if s.player1_alive then
        let m := move_player_snake s s.player1_id draws
        (m.1, ["P1: " ++ m.2.1.message], m.2.2)
      else (s, [], draws)
    let step2 :=
      if step1.1.player2_alive then
        let m := move_player_snake step1.1 step1.1.player2_id step1.2.2
        (m.1, step1.2.1 ++ ["P2: " ++ m.2.1.message], m.2.2)
      else (step1.1, step1.2.1, step1.2.2)
    let s3 := check_game_over step2.1
    let s4 := {s3 with turn_count := s3.turn_count + 1}
    (s4, ⟨true, String.intercalate " | " step2.2.1⟩)

/-- Effect of `json.dumps` followed by `json.loads` on one cell: a tuple is
serialized as a JSON array and loaded back as a Python list. -/
def cellJson (c : PyCell) : PyCell := .lst c.x c.y

/-- `SnakeGame.from_json (game.to_json())`: every scalar field is restored
verbatim, while the snake bodies and food positions come back as lists of
Python lists instead of tuples. -/
def jsonRoundTrip (s : SnakeGame) : SnakeGame :=
  {s with player1_snake := s.player1_snake.map cellJson,
          player2_snake := s.player2_snake.map cellJson,
          food_positions := s.food_positions.map cellJson}

end SnakeGame

/-- The seven tetromino tags of `tetris.py`. -/
inductive PieceType where
  | I
  | O
  | T
  | S
  | Z
  | J
  | L
  deriving DecidableEq, Repr

/-- A piece dictionary: its `type` tag and its `shapes` orientation table. -/
structure Piece where
  type : PieceType
  shapes : List (List String)
  deriving DecidableEq, Repr

/-- State of `TetrisGame` (`tetris.py`): every mutable attribute set by
`reset_game` and restored by `from_json`.  Board cells hold `'.'` for empty or
the placing piece's type character. -/
structure TetrisGame where
  session_id : String
  player1_id : Int
  player2_id : Int
  player1_board : List (List Char)
  player2_board : List (List Char)
  player1_score : Int
  player2_score : Int
  player1_lines_cleared : Nat
  player2_lines_cleared : Nat
  player1_level : Nat
  player2_level : Nat
  player1_current_piece : Piece
  player2_current_piece : Piece
  player1_next_piece : Piece
  player2_next_piece : Piece
  player1_piece_pos : Int × Int
  player2_piece_pos : Int × Int
  player1_piece_rotation : Nat
  player2_piece_rotation : Nat
  game_over : Bool
  winner : Option Int
  deriving DecidableEq, Repr

namespace TetrisGame

/-- Board width fixed in `__init__`. -/
def board_width : Nat := 10

/-- Board height fixed in `__init__`. -/
def board_height : Nat := 20

/-- The `PIECES` orientation tables, verbatim from the class constant. -/
def PIECES : PieceType → List (List String)
  | .I =>
    [["....", "####", "....", "...."],
     ["..#.", "..#.", "..#.", "..#."],
     ["....", "####", "....", "...."],
     ["..#.", "..#.", "..#.", "..#."]]
  | .O =>
    [["....", ".##.", ".##.", "...."]]
  | .T =>
    [["....", ".#..", "###.", "...."],
     ["....", ".#..", ".##.", ".#.."],
     ["....", "....", "###.", ".#.."],
     ["....", ".#..", "##..", ".#.."]]
  | .S =>
    [["....", ".##.", "##..", "...."],
     ["....", ".#..", ".##.", "..#."]]
  | .Z =>
    [["....", "##..", ".##.", "...."],
     ["....", "..#.", ".##.", ".#.."]]
  | .J =>
    [["....", ".#..", ".#..", "##.."],
     ["....", "....", "#...", "###."],
     ["....", ".##.", ".#..", ".#.."],
     ["....", "....", "###.", "..#."]]
  | .L =>
    [["....", ".#..", ".#..", ".##."],
     ["....", "....", "###.", "#..."],
     ["....", "##..", ".#..", ".#.."],
     ["....", "....", "..#.", "###."]]

/-- `TetrisGame.get_random_piece` applied to a drawn tag: the piece dictionary
built from the drawn type. -/
def get_random_piece (draw : PieceType) : Piece :=
  ⟨draw, PIECES draw⟩

/-- Character written into a board cell by a locking piece (`piece['type']`). -/
def pieceChar : PieceType → Char
  | .I => 'I'
  | .O => 'O'
  | .T => 'T'
  | .S => 'S'
  | .Z => 'Z'
  | .J => 'J'
  | .L => 'L'

/-- `TetrisGame.get_piece_shape`: the orientation table entry at the rotation
index modulo the table length. -/
def get_piece_shape (piece : Piece) (rotation : Nat) : List String :=
  piece.shapes.getD (rotation % piece.shapes.length) []

/-- Board cell lookup `board[new_row][new_col]` (callers establish bounds
first, as the source does). -/
def cellAt (board : List (List Char)) (r c : Int) : Char :=
  (board.getD r.toNat []).getD c.toNat '.'

/-- `TetrisGame.is_valid_position`: every `'#'` cell of the shape at the
candidate position lies within the board and over an empty cell. -/
def is_valid_position (board : List (List Char)) (piece : Piece)
    (pos : Int × Int) (rotation : Nat) : Bool :=
  (get_piece_shape piece rotation).enum.all fun il =>
    il.2.toList.enum.all fun jc =>
      if jc.2 == '#' then
        let nr := pos.1 + (il.1 : Int)
        let nc := pos.2 + (jc.1 : Int)
        decide (0 ≤ nr) && decide (nr < (board_height : Int)) &&
          decide (0 ≤ nc) && decide (nc < (board_width : Int)) &&
          (cellAt board nr nc == '.')
      else true

/-- Write one character into one board cell (row `r`, column `c`). -/
def setCell (board : List (List Char)) (r c : Int) (ch : Char) : List (List Char) :=
  board.enum.map fun p =>
    if (p.1 : Int) == r then
      p.2.enum.map fun q => if (q.1 : Int) == c then ch else q.2
    else p.2

/-- `TetrisGame.place_piece`: write every in-bounds `'#'` cell of the shape
into a copy of the board as the piece's type character. -/
def place_piece (board : List (List Char)) (piece : Piece)
    (pos : Int × Int) (rotation : Nat) : List (List Char) :=
  (get_piece_shape piece rotation).enum.foldl
    (fun b il =>
      il.2.toList.enum.foldl
        (fun b2 jc =>
          if jc.2 == '#' then
            let nr := pos.1 + (il.1 : Int)
            let nc := pos.2 + (jc.1 : Int)
            if decide (0 ≤ nr) && decide (nr < (board_height : Int)) &&
                decide (0 ≤ nc) && decide (nc < (board_width : Int)) then
              setCell b2 nr nc (pieceChar piece.type)
            else b2
          else b2)
        b)
    board

/-- One empty board row. -/
def emptyRow : List Char := List.replicate board_width '.'

/-- `TetrisGame.clear_lines`: keep the rows containing an empty cell, count
the complete rows, and pad with empty rows at the top up to the board
height. -/
def clear_lines (board : List (List Char)) : List (List Char) × Nat :=
  let kept := board.filter fun row => row.contains '.'
  let cleared := (board.filter fun row => !row.contains '.').length
  (List.replicate (board_height - kept.length) emptyRow ++ kept, cleared)

/-- `TetrisGame.calculate_score`: the `{1: 40, 2: 100, 3: 300, 4: 1200}` base
table (default 0) times `level + 1`, and 0 for no cleared line. -/
def calculate_score (lines_cleared : Nat) (level : Nat) : Int :=
  if lines_cleared == 0 then 0
  else
    let base : Int :=
      match lines_cleared with
      | 1 => 40
      | 2 => 100
      | 3 => 300
      | 4 => 1200
      | _ => 0
    base * ((level : Int) + 1)

/-- Result dictionary of a tetris operation; the lock result additionally
carries the `lines_cleared` and `score_gained` keys. -/
structure TResult where
  success : Bool
  message : String
  lines_cleared : Option Nat := none
  score_gained : Option Int := none
  deriving DecidableEq, Repr

/-- `TetrisGame.place_current_piece`: write the current piece into the board,
clear lines, award the score at the pre-lock level, update lines and level,
promote the next piece and draw a new one (`draw`), reset the spawn position,
and end the game with the opponent as winner if the spawn placement is
illegal. -/
def place_current_piece (s : TetrisGame) (player_id : Int) (draw : PieceType) :
    TetrisGame × TResult :=
  if player_id == s.player1_id then
    let placed := place_piece s.player1_board s.player1_current_piece
      s.player1_piece_pos s.player1_piece_rotation
    let cleared := clear_lines placed
    let level := s.player1_level
    let score_gained := calculate_score cleared.2 level
    let lines := s.player1_lines_cleared + cleared.2
    let s1 := {s with player1_board := cleared.1,
                      player1_score := s.player1_score + score_gained,
                      player1_lines_cleared := lines,
                      player1_level := lines / 10 + 1,
                      player1_current_piece := s.player1_next_piece,
                      player1_next_piece := get_random_piece draw,
                      player1_piece_pos := (0, 4),
                      player1_piece_rotation := 0}
    let s2 :=
      if !is_valid_position cleared.1 s1.player1_current_piece
          s1.player1_piece_pos s1.player1_piece_rotation then
        {s1 with game_over := true, winner := some s.player2_id}
      else s1
    (s2, ⟨true,
      "Piece placed, " ++ toString cleared.2 ++ " lines cleared, " ++
        toString score_gained ++ " points gained",
      some cleared.2, some score_gained⟩)
  else if player_id == s.player2_id then
    let placed := place_piece s.player2_board s.player2_current_piece
      s.player2_piece_pos s.player2_piece_rotation
    let cleared := clear_lines placed
    let level := s.player2_level
    let score_gained := calculate_score cleared.2 level
    let lines := s.player2_lines_cleared + cleared.2
    let s1 := {s with player2_board := cleared.1,
                      player2_score := s.player2_score + score_gained,
                      player2_lines_cleared := lines,
                      player2_level := lines / 10 + 1,
                      player2_current_piece := s.player2_next_piece,
                      player2_next_piece := get_random_piece draw,
                      player2_piece_pos := (0, 4),
                      player2_piece_rotation := 0}
    let s2 :=
      if !is_valid_position cleared.1 s1.player2_current_piece
          s1.player2_piece_pos s1.player2_piece_rotation then
        {s1 with game_over := true, winner := some s.player1_id}
      else s1
    (s2, ⟨true,
      "Piece placed, " ++ toString cleared.2 ++ " lines cleared, " ++
        toString score_gained ++ " points gained",
      some cleared.2, some score_gained⟩)
  else (s, ⟨false, "Invalid player", none, none⟩)

/-- The four move kinds of `TetrisGame.move_piece`. -/
inductive TMove where
  | left
  | right
  | down
  | rotate
  deriving DecidableEq, Repr

/-- `TetrisGame.move_piece`: translate or rotate the acting player's piece if
the result is legal; an illegal `down` locks the piece via
`place_current_piece` (consuming the random draw), any other illegal move is
rejected. -/
def move_piece (s : TetrisGame) (player_id : Int) (direction : TMove)
    (draw : PieceType) : TetrisGame × TResult :=
  if s.game_over then (s, ⟨false, "Game is over", none, none⟩)
  else if player_id == s.player1_id then
    let pos := s.player1_piece_pos
    let cand :=
      match direction with
      | .left => ((pos.1, pos.2 - 1), s.player1_piece_rotation)
      | .right => ((pos.1, pos.2 + 1), s.player1_piece_rotation)
      | .down => ((pos.1 + 1, pos.2), s.player1_piece_rotation)
      | .rotate =>
        (pos, (s.player1_piece_rotation + 1) % s.player1_current_piece.shapes.length)
    if is_valid_position s.player1_board s.player1_current_piece cand.1 cand.2 then
      ({s with player1_piece_pos := cand.1, player1_piece_rotation := cand.2},
       ⟨true, "Piece moved", none, none⟩)
    else if direction == TMove.down then place_current_piece s player_id draw
    else (s, ⟨false, "Invalid move", none, none⟩)
  else if player_id == s.player2_id then
    let pos := s.player2_piece_pos
    let cand :=
      match direction with
      | .left => ((pos.1, pos.2 - 1), s.player2_piece_rotation)
      | .right => ((pos.1, pos.2 + 1), s.player2_piece_rotation)
      | .down => ((pos.1 + 1, pos.2), s.player2_piece_rotation)
      | .rotate =>
        (pos, (s.player2_piece_rotation + 1) % s.player2_current_piece.shapes.length)
    if is_valid_position s.player2_board s.player2_current_piece cand.1 cand.2 then
      ({s with player2_piece_pos := cand.1, player2_piece_rotation := cand.2},
       ⟨true, "Piece moved", none, none⟩)
    else if direction == TMove.down then place_current_piece s player_id draw
    else (s, ⟨false, "Invalid move", none, none⟩)
  else (s, ⟨false, "Invalid player", none, none⟩)

/-- The `while True` loop of `TetrisGame.drop_piece`, with explicit fuel for
termination; `draws` is the stream of random piece tags, one consumed per
lock, and the returned number counts the locks performed. -/
def dropAux (player_id : Int) (draws : Nat → PieceType) :
    Nat → Nat → TetrisGame → Option (TetrisGame × Nat)
  | 0, _, _ => none
  | fuel + 1, k, s =>
    let step := move_piece s player_id TMove.down (draws k)
    if step.2.success then
      dropAux player_id draws fuel (if step.2.score_gained.isSome then k + 1 else k) step.1
    else some (step.1, k)

/-- `TetrisGame.drop_piece`: run the loop and report its fixed success
dictionary (`none` when the given fuel does not reach the loop's exit). -/
def drop_piece (s : TetrisGame) (player_id : Int) (draws : Nat → PieceType)
    (fuel : Nat) : Option (TetrisGame × TResult) :=
  (dropAux player_id draws fuel 0 s).map fun p => (p.1, ⟨true, "Piece dropped", none, none⟩)

end TetrisGame

/-- State of `PingPongGame` (`ping_pong.py`): every mutable attribute set by
`reset_game` and restored by `from_json`. -/
structure PingPongGame where
  session_id : String
  player1_id : Int
  player2_id : Int
  player1_paddle_y : Int
  player2_paddle_y : Int
  ball_x : Int
  ball_y : Int
  ball_vel_x : Int
  ball_vel_y : Int
  player1_score : Int
  player2_score : Int
  game_over : Bool
  winner : Option Int
  rally_count : Int
  max_score : Int
  turn_count : Int
  deriving DecidableEq, Repr

namespace PingPongGame

/-- Field width fixed in `__init__`. -/
def field_width : Int := 20

/-- Field height fixed in `__init__`. -/
def field_height : Int := 10

/-- Paddle height fixed in `reset_game`. -/
def paddle_height : Int := 3

/-- `PingPongGame.move_paddle`: shift the paddle one cell up or down, clamped
to the field's vertical extent (the source's invalid-direction message quotes
the two words; the quotes are omitted here). -/
def move_paddle (s : PingPongGame) (player_id : Int) (direction : Dir) :
    PingPongGame × MoveResult :=
  if s.game_over then (s, ⟨false, "Game is over"⟩)
  else if player_id == s.player1_id then
    match direction with
    | .up =>
      ({s with player1_paddle_y := max 0 (s.player1_paddle_y - 1)},
       ⟨true, "Paddle moved up"⟩)
    | .down =>
      ({s with player1_paddle_y := min (field_height - paddle_height) (s.player1_paddle_y + 1)},
       ⟨true, "Paddle moved down"⟩)
    | _ => (s, ⟨false, "Invalid direction. Use up or down"⟩)
  else if player_id == s.player2_id then
    match direction with
    | .up =>
      ({s with player2_paddle_y := max 0 (s.player2_paddle_y - 1)},
       ⟨true, "Paddle moved up"⟩)
    | .down =>
      ({s with player2_paddle_y := min (field_height - paddle_height) (s.player2_paddle_y + 1)},
       ⟨true, "Paddle moved down"⟩)
    | _ => (s, ⟨false, "Invalid direction. Use up or down"⟩)
  else (s, ⟨false, "Invalid player"⟩)

/-- Collision dictionary returned by `check_paddle_collision` on a hit. -/
structure Collision where
  new_x : Int
  new_y : Int
  new_vel_x : Int
  new_vel_y : Int
  deriving DecidableEq, Repr

/-- `PingPongGame.check_paddle_collision` at the candidate ball cell: a paddle
hit requires the ball to cross that paddle's plane while moving toward it with
its row inside the paddle's 3-cell span; the new vertical velocity is the
offset from the paddle center. -/
def check_paddle_collision (s : PingPongGame) (bx bya : Int) : Option Collision :=
  if bx ≤ 1 ∧ s.ball_vel_x < 0 ∧
      s.player1_paddle_y ≤ bya ∧ bya < s.player1_paddle_y + paddle_height then
    some ⟨2, bya, 1, bya - (s.player1_paddle_y + paddle_height / 2)⟩
  else if bx ≥ field_width - 2 ∧ s.ball_vel_x > 0 ∧
      s.player2_paddle_y ≤ bya ∧ bya < s.player2_paddle_y + paddle_height then
    some ⟨field_width - 3, bya, -1, bya - (s.player2_paddle_y + paddle_height / 2)⟩
  else none

/-- `PingPongGame.reset_ball`: ball back to the field center with the freshly
drawn velocities and a zero rally counter. -/
def reset_ball (s : PingPongGame) (rvx rvy : Int) : PingPongGame :=
  {s with ball_x := field_width / 2, ball_y := field_height / 2,
          ball_vel_x := rvx, ball_vel_y := rvy, rally_count := 0}

/-- `PingPongGame.check_game_over`: target-score detection, then the 500-turn
cap with the score-based winner (or tie). -/
def check_game_over (s : PingPongGame) : PingPongGame :=
  let s1 :=
    if s.player1_score ≥ s.max_score then
      {s with game_over := true, winner := some s.player1_id}
    else if s.player2_score ≥ s.max_score then
      {s with game_over := true, winner := some s.player2_id}
    else s
  if s1.turn_count ≥ 500 then
    {s1 with game_over := true,
             winner :=
               if s1.player1_score > s1.player2_score then some s1.player1_id
               else if s1.player2_score > s1.player1_score then some s1.player2_id
               else none}
  else s1

/-- Vertical ball coordinate after the top/bottom wall handling of
`update_ball`. -/
def wallY (s : PingPongGame) : Int :=
  let ny := s.ball_y + s.ball_vel_y
  if ny ≤ 0 then 0
  else if ny ≥ field_height - 1 then field_height - 1
  else ny

/-- Vertical velocity after the top/bottom wall handling of `update_ball`. -/
def wallVelY (s : PingPongGame) : Int :=
  let ny := s.ball_y + s.ball_vel_y
  if ny ≤ 0 then |s.ball_vel_y|
  else if ny ≥ field_height - 1 then -|s.ball_vel_y|
  else s.ball_vel_y

/-- `PingPongGame.update_ball` (one tick): advance the ball, bounce on the
walls, then either a paddle hit, a score for the side the ball passed (with
the ball reset using the drawn velocities `rvx`, `rvy` and the cap check), or
a plain move; `turn_count` increments in every non-terminal call. -/
def update_ball (s : PingPongGame) (rvx rvy : Int) : PingPongGame × MoveResult :=
  if s.game_over then (s, ⟨false, "Game is over"⟩)
  else
    let new_x := s.ball_x + s.ball_vel_x
    let new_y := wallY s
    let s0 := {s with ball_vel_y := wallVelY s}
    match check_paddle_collision s0 new_x new_y with
    | some col =>
      let s1 := {s0 with ball_vel_x := col.new_vel_x, ball_vel_y := col.new_vel_y,
                         ball_x := col.new_x, ball_y := col.new_y,
                         rally_count := s0.rally_count + 1}
      ({s1 with turn_count := s1.turn_count + 1},
       ⟨true, "Paddle hit! Rally: " ++ toString s1.rally_count⟩)
    | none =>
      if new_x ≤ 0 then
        let s1 := check_game_over
          (reset_ball {s0 with player2_score := s0.player2_score + 1} rvx rvy)
        ({s1 with turn_count := s1.turn_count + 1},
         ⟨true, "Player 2 scores! (" ++ toString s0.player1_score ++ "-" ++
            toString (s0.player2_score + 1) ++ ")"⟩)
      else if new_x ≥ field_width - 1 then
        let s1 := check_game_over
          (reset_ball {s0 with player1_score := s0.player1_score + 1} rvx rvy)
        ({s1 with turn_count := s1.turn_count + 1},
         ⟨true, "Player 1 scores! (" ++ toString (s0.player1_score + 1) ++ "-" ++
            toString s0.player2_score ++ ")"⟩)
      else
        ({s0 with ball_x := new_x, ball_y := new_y, turn_count := s0.turn_count + 1},
         ⟨true, "Ball moved"⟩)

end PingPongGame

/-! Concrete states used by the claim theorems, their witnesses and
counterexamples. -/

/-- A mid-game snake state: player 1 one step above player 2's body, about to
collide on the next tick. -/
def c1SnakeState : SnakeGame :=
  { session_id := "s", player1_id := 1, player2_id := 2,
    player1_snake := [.tup 6 13, .tup 6 12, .tup 6 11],
    player2_snake := [.tup 7 12, .tup 7 13, .tup 7 14],
    player1_direction := .down, player2_direction := .left,
    player1_score := 0, player2_score := 0,
    player1_alive := true, player2_alive := true,
    food_positions := [.tup 0 0, .tup 3 3],
    turn_count := 5, game_over := false, winner := none }

/-- A snake state where player 2's next head cell is player 1's pre-move tail
cell, which player 1 vacates on the same tick. -/
def c3SnakeState : SnakeGame :=
  { session_id := "s", player1_id := 1, player2_id := 2,
    player1_snake := [.tup 5 5, .tup 5 4, .tup 5 3],
    player2_snake := [.tup 6 3, .tup 7 3, .tup 8 3],
    player1_direction := .right, player2_direction := .up,
    player1_score := 0, player2_score := 0,
    player1_alive := true, player2_alive := true,
    food_positions := [.tup 0 0, .tup 14 14],
    turn_count := 5, game_over := false, winner := none }

/-- A snake state with both snakes' heads one cell apart, moving toward each
other (heads would swap on the next tick). -/
def cHeadSwapState : SnakeGame :=
  { c3SnakeState with
    player1_snake := [.tup 5 5, .tup 5 4, .tup 5 3],
    player2_snake := [.tup 5 6, .tup 5 7, .tup 5 8],
    player1_direction := .right, player2_direction := .left }

/-- A snake state that has just completed turn 199 with tied scores. -/
def c4SnakeState : SnakeGame :=
  { c3SnakeState with
    player1_snake := [.tup 7 3, .tup 7 2, .tup 7 1],
    player2_snake := [.tup 7 12, .tup 7 13, .tup 7 14],
    player2_direction := .left,
    turn_count := 199 }

/-- The same snake position at the start of the 201st tick, with no food on
the board. -/
def c4SnakeState' : SnakeGame :=
  { c4SnakeState with turn_count := 200, food_positions := [] }

/-- A fresh-looking snake state whose player 1 just moved right. -/
def c10SnakeState : SnakeGame :=
  { c3SnakeState with
    player1_snake := [.tup 7 3, .tup 7 2, .tup 7 1],
    player2_snake := [.tup 7 12, .tup 7 13, .tup 7 14],
    player2_direction := .left,
    turn_count := 1 }

/-- A pong state at the turn cap with tied scores and the ball crossing
mid-field. -/
def c4PongState : PingPongGame :=
  { session_id := "s", player1_id := 1, player2_id := 2,
    player1_paddle_y := 3, player2_paddle_y := 3,
    ball_x := 10, ball_y := 5, ball_vel_x := 1, ball_vel_y := 0,
    player1_score := 0, player2_score := 0,
    game_over := false, winner := none, rally_count := 0,
    max_score := 11, turn_count := 500 }

/-- A pong state at the turn cap about to concede a point to player 2, with
player 1 one point ahead. -/
def c4PongState' : PingPongGame :=
  { c4PongState with ball_x := 1, ball_y := 8, ball_vel_x := -1, ball_vel_y := 1,
                     player1_score := 3, player2_score := 2 }

/-- A pong state with both paddles at their extreme offsets. -/
def c9PongState : PingPongGame :=
  { c4PongState with player1_paddle_y := 0, player2_paddle_y := 7, turn_count := 10 }

/-- One board row with columns 5 and 6 occupied. -/
def row56 : List Char := ['.', '.', '.', '.', '.', 'O', 'O', '.', '.', '.']

/-- A tetris state whose player-1 board has columns 5 and 6 filled from row 5
down, with `O` pieces current and next at the spawn point. -/
def c2TetrisState : TetrisGame :=
  { session_id := "s", player1_id := 1, player2_id := 2,
    player1_board := List.replicate 5 TetrisGame.emptyRow ++ List.replicate 15 row56,
    player2_board := List.replicate 20 TetrisGame.emptyRow,
    player1_score := 0, player2_score := 0,
    player1_lines_cleared := 0, player2_lines_cleared := 0,
    player1_level := 1, player2_level := 1,
    player1_current_piece := TetrisGame.get_random_piece .O,
    player2_current_piece := TetrisGame.get_random_piece .O,
    player1_next_piece := TetrisGame.get_random_piece .O,
    player2_next_piece := TetrisGame.get_random_piece .O,
    player1_piece_pos := (0, 4), player2_piece_pos := (0, 4),
    player1_piece_rotation := 0, player2_piece_rotation := 0,
    game_over := false, winner := none }

/-- A finished tetris game. -/
def c8TetrisState : TetrisGame := { c2TetrisState with game_over := true }

/-- One board row that is complete except at columns 5 and 6. -/
def rowAllBut56 : List Char := ['T', 'T', 'T', 'T', 'T', '.', '.', 'T', 'T', 'T']

/-- A tetris state whose player-1 `O` piece sits directly above the two gaps of
an otherwise complete bottom row. -/
def c5TetrisState : TetrisGame :=
  { c2TetrisState with
    player1_board := List.replicate 19 TetrisGame.emptyRow ++ [rowAllBut56],
    player1_piece_pos := (17, 4) }

/-- A tetris state whose player-1 board blocks the spawn cells (rows 1 and 2,
columns 5 and 6) while its current `O` piece is near the bottom. -/
def c6TetrisState : TetrisGame :=
  { c2TetrisState with
    player1_board :=
      [TetrisGame.emptyRow, row56, row56] ++ List.replicate 17 TetrisGame.emptyRow,
    player1_piece_pos := (17, 4) }

/-- A finished snake game. -/
def c8SnakeState : SnakeGame := { c1SnakeState with game_over := true }

/-- A finished pong game. -/
def c8PongState : PingPongGame := { c4PongState with game_over := true }

/-! Helper lemmas shared by the claim theorems. -/

lemma pyEq_refl (c : PyCell) : pyEq c c = true := by
  cases c <;> simp [pyEq]

lemma spawnFoodAux_shape : ∀ (n : Nat) (ds : List (Int × Int)) (s : SnakeGame),
    ∃ f ds2, SnakeGame.spawnFoodAux s n ds = ({s with food_positions := f}, ds2) := by
  intro n
  induction n with
  | zero =>
    intro ds s
    exact ⟨s.food_positions, ds, rfl⟩
  | succ n ih =>
    intro ds s
    cases ds with
    | nil => exact ⟨s.food_positions, [], rfl⟩
    | cons d ds =>
      obtain ⟨x, y⟩ := d
      by_cases h : (!pyMem (.tup x y) s.player1_snake && !pyMem (.tup x y) s.player2_snake &&
          !pyMem (.tup x y) s.food_positions) = true
      · exact ⟨s.food_positions ++ [PyCell.tup x y], ds, by simp [SnakeGame.spawnFoodAux, h]⟩
      · obtain ⟨f, ds2, hrec⟩ := ih ds s
        exact ⟨f, ds2, by simp [SnakeGame.spawnFoodAux, h, hrec]⟩

lemma move_player1_elim (s : SnakeGame) (draws : List (Int × Int))
    (h : SnakeGame.is_valid_position
          (SnakeGame.newHead s.player1_direction (SnakeGame.headCell s.player1_snake)).x
          (SnakeGame.newHead s.player1_direction (SnakeGame.headCell s.player1_snake)).y = false
       ∨ pyMem (SnakeGame.newHead s.player1_direction (SnakeGame.headCell s.player1_snake))
          s.player1_snake = true
       ∨ pyMem (SnakeGame.newHead s.player1_direction (SnakeGame.headCell s.player1_snake))
          s.player2_snake = true) :
    (SnakeGame.move_player_snake s s.player1_id draws).1 = {s with player1_alive := false} := by
  by_cases hv : SnakeGame.is_valid_position
      (SnakeGame.newHead s.player1_direction (SnakeGame.headCell s.player1_snake)).x
      (SnakeGame.newHead s.player1_direction (SnakeGame.headCell s.player1_snake)).y <;>
  by_cases hs : pyMem (SnakeGame.newHead s.player1_direction (SnakeGame.headCell s.player1_snake))
      s.player1_snake <;>
  by_cases ho : pyMem (SnakeGame.newHead s.player1_direction (SnakeGame.headCell s.player1_snake))
      s.player2_snake <;>
  simp [SnakeGame.move_player_snake, hv, hs, ho] at h ⊢

lemma move_player2_elim (s : SnakeGame) (draws : List (Int × Int))
    (hne : (s.player2_id == s.player1_id) = false)
    (h : SnakeGame.is_valid_position
          (SnakeGame.newHead s.player2_direction (SnakeGame.headCell s.player2_snake)).x
          (SnakeGame.newHead s.player2_direction (SnakeGame.headCell s.player2_snake)).y = false
       ∨ pyMem (SnakeGame.newHead s.player2_direction (SnakeGame.headCell s.player2_snake))
          s.player2_snake = true
       ∨ pyMem (SnakeGame.newHead s.player2_direction (SnakeGame.headCell s.player2_snake))
          s.player1_snake = true) :
    (SnakeGame.move_player_snake s s.player2_id draws).1 = {s with player2_alive := false} := by
  by_cases hv : SnakeGame.is_valid_position
      (SnakeGame.newHead s.player2_direction (SnakeGame.headCell s.player2_snake)).x
      (SnakeGame.newHead s.player2_direction (SnakeGame.headCell s.player2_snake)).y <;>
  by_cases hs : pyMem (SnakeGame.newHead s.player2_direction (SnakeGame.headCell s.player2_snake))
      s.player2_snake <;>
  by_cases ho : pyMem (SnakeGame.newHead s.player2_direction (SnakeGame.headCell s.player2_snake))
      s.player1_snake <;>
  simp [SnakeGame.move_player_snake, hne, hv, hs, ho] at h ⊢

lemma spawnFoodAux_fields (n : Nat) (ds : List (Int × Int)) (s : SnakeGame) :
    (SnakeGame.spawnFoodAux s n ds).1.player1_snake = s.player1_snake ∧
    (SnakeGame.spawnFoodAux s n ds).1.player2_snake = s.player2_snake ∧
    (SnakeGame.spawnFoodAux s n ds).1.player1_alive = s.player1_alive ∧
    (SnakeGame.spawnFoodAux s n ds).1.player2_alive = s.player2_alive ∧
    (SnakeGame.spawnFoodAux s n ds).1.player1_score = s.player1_score ∧
    (SnakeGame.spawnFoodAux s n ds).1.player2_score = s.player2_score ∧
    (SnakeGame.spawnFoodAux s n ds).1.game_over = s.game_over ∧
    (SnakeGame.spawnFoodAux s n ds).1.winner = s.winner ∧
    (SnakeGame.spawnFoodAux s n ds).1.turn_count = s.turn_count ∧
    (SnakeGame.spawnFoodAux s n ds).1.player1_id = s.player1_id ∧
    (SnakeGame.spawnFoodAux s n ds).1.player2_id = s.player2_id ∧
    (SnakeGame.spawnFoodAux s n ds).1.player1_direction = s.player1_direction ∧
    (SnakeGame.spawnFoodAux s n ds).1.player2_direction = s.player2_direction := by
  obtain ⟨f, ds2, h⟩ := spawnFoodAux_shape n ds s
  rw [h]
  simp

lemma move_player2_preserves_p1 (s : SnakeGame) (draws : List (Int × Int))
    (hne : (s.player2_id == s.player1_id) = false) :
    (SnakeGame.move_player_snake s s.player2_id draws).1.player1_snake = s.player1_snake ∧
    (SnakeGame.move_player_snake s s.player2_id draws).1.player1_alive = s.player1_alive ∧
    (SnakeGame.move_player_snake s s.player2_id draws).1.game_over = s.game_over ∧
    (SnakeGame.move_player_snake s s.player2_id draws).1.turn_count = s.turn_count := by
  by_cases hv : SnakeGame.is_valid_position
      (SnakeGame.newHead s.player2_direction (SnakeGame.headCell s.player2_snake)).x
      (SnakeGame.newHead s.player2_direction (SnakeGame.headCell s.player2_snake)).y <;>
  by_cases hs : pyMem (SnakeGame.newHead s.player2_direction (SnakeGame.headCell s.player2_snake))
      s.player2_snake <;>
  by_cases ho : pyMem (SnakeGame.newHead s.player2_direction (SnakeGame.headCell s.player2_snake))
      s.player1_snake <;>
  by_cases hf : pyMem (SnakeGame.newHead s.player2_direction (SnakeGame.headCell s.player2_snake))
      s.food_positions <;>
  simp [SnakeGame.move_player_snake, SnakeGame.spawn_food, hne, hv, hs, ho, hf,
    spawnFoodAux_fields]

lemma snake_check_fields (s : SnakeGame) :
    (SnakeGame.check_game_over s).player1_snake = s.player1_snake ∧
    (SnakeGame.check_game_over s).player2_snake = s.player2_snake ∧
    (SnakeGame.check_game_over s).player1_alive = s.player1_alive ∧
    (SnakeGame.check_game_over s).player2_alive = s.player2_alive ∧
    (SnakeGame.check_game_over s).player1_score = s.player1_score ∧
    (SnakeGame.check_game_over s).player2_score = s.player2_score ∧
    (SnakeGame.check_game_over s).turn_count = s.turn_count ∧
    (SnakeGame.check_game_over s).food_positions = s.food_positions := by
  unfold SnakeGame.check_game_over
  refine ⟨?_, ?_, ?_, ?_, ?_, ?_, ?_, ?_⟩ <;> dsimp only <;> (repeat' split) <;> rfl

lemma snake_check_both_dead (s : SnakeGame)
    (h1 : s.player1_alive = false) (h2 : s.player2_alive = false) :
    (SnakeGame.check_game_over s).game_over = true := by
  unfold SnakeGame.check_game_over
  simp only [h1, h2, Bool.not_false, Bool.and_self, if_true]
  split <;> rfl

/-- C3 (amended): two snakes whose heads step into each other's pre-move head
cell on the same tick are both eliminated with their bodies unchanged, and the
game ends: the first mover hits the opponent's still-unmoved head cell, the
second hits the first mover's unmoved body. -/
theorem snake_headswap_mutual_elimination (s : SnakeGame) (draws : List (Int × Int))
    (h1c h2c : PyCell) (t1 t2 : List PyCell)
    (hgo : s.game_over = false)
    (hne : (s.player2_id == s.player1_id) = false)
    (h1a : s.player1_alive = true) (h2a : s.player2_alive = true)
    (hb1 : s.player1_snake = h1c :: t1) (hb2 : s.player2_snake = h2c :: t2)
    (hs1 : SnakeGame.newHead s.player1_direction h1c = h2c)
    (hs2 : SnakeGame.newHead s.player2_direction h2c = h1c) :
    (s.update_game_state draws).1.player1_alive = false ∧
    (s.update_game_state draws).1.player2_alive = false ∧
    (s.update_game_state draws).1.game_over = true ∧
    (s.update_game_state draws).1.player1_snake = s.player1_snake ∧
    (s.update_game_state draws).1.player2_snake = s.player2_snake := by
  have hm1 : (SnakeGame.move_player_snake s s.player1_id draws).1 =
      {s with player1_alive := false} := by
    apply move_player1_elim
    right; right
    simp [SnakeGame.headCell, hb1, hs1, pyMem, hb2, pyEq_refl]
  rcases hmp : SnakeGame.move_player_snake s s.player1_id draws with ⟨ms, r1, ds1⟩
  rw [hmp] at hm1
  simp only at hm1
  subst hm1
  have hm2 : (SnakeGame.move_player_snake {s with player1_alive := false}
      s.player2_id ds1).1 = {s with player1_alive := false, player2_alive := false} := by
    have := move_player2_elim {s with player1_alive := false} ds1 (by simpa using hne)
      (by right; right; simp [SnakeGame.headCell, hb2, hs2, pyMem, hb1, pyEq_refl])
    simpa using this
  rcases hmp2 : SnakeGame.move_player_snake {s with player1_alive := false}
      s.player2_id ds1 with ⟨ms2, r2, ds2⟩
  rw [hmp2] at hm2
  simp only at hm2
  subst hm2
  rw [h2a, hgo] at hmp2
  unfold SnakeGame.update_game_state
  simp only [hgo, Bool.false_eq_true, if_false, h1a, if_true, hmp]
  simp only [h2a, if_true, hmp2]
  constructor
  · simp [snake_check_fields]
  constructor
  · simp [snake_check_fields]
  constructor
  · simp [snake_check_both_dead]
  constructor
  · simp [snake_check_fields]
  · simp [snake_check_fields]

/-- C1: restoring the snake engine from its own snapshot does NOT reproduce
subsequent behavior.  On `c1SnakeState` one tick ends the game (player 1
collides with player 2, winner player 2), but after `to_json`/`from_json` the
body cells come back as Python lists while prospective heads are tuples, so no
collision is detected and the game continues. -/
theorem snake_snapshot_roundtrip_diverges :
    (c1SnakeState.update_game_state []).1.game_over = true ∧
    (c1SnakeState.update_game_state []).1.winner = some c1SnakeState.player2_id ∧
    (c1SnakeState.update_game_state []).1.player1_alive = false ∧
    ((c1SnakeState.jsonRoundTrip).update_game_state []).1.game_over = false ∧
    ((c1SnakeState.jsonRoundTrip).update_game_state []).1.player1_alive = true := by
  decide

/-- C2: `drop_piece` does not stop after the first lock.  From `c2TetrisState`
(player 1's `O` piece three rows above its landing spot) the loop performs two
locks and only exits once the second spawn is blocked and the game is over
with player 2 the winner, while the external result still reports success. -/
theorem tetris_drop_piece_runs_past_first_lock :
    (TetrisGame.dropAux c2TetrisState.player1_id (fun _ => PieceType.O) 10 0
        c2TetrisState).map (fun p => (p.2, p.1.game_over, p.1.winner)) =
      some (2, true, some 2) ∧
    (c2TetrisState.drop_piece c2TetrisState.player1_id (fun _ => PieceType.O) 10).map
        (fun p => p.2.success) = some true := by
  decide

/-- C3 (counterexample): one tick does not evaluate both snakes against the
tick-start state.  In `c3SnakeState`, player 2's prospective head `(5, 3)`
lies in player 1's pre-move body, yet player 2 survives the tick and occupies
that cell, because player 1's snake had already been moved when player 2's
collision was checked. -/
theorem snake_tick_sequential_counterexample :
    pyMem (.tup 5 3) c3SnakeState.player1_snake = true ∧
    SnakeGame.newHead c3SnakeState.player2_direction
      (SnakeGame.headCell c3SnakeState.player2_snake) = .tup 5 3 ∧
    (c3SnakeState.update_game_state []).1.player2_alive = true ∧
    (c3SnakeState.update_game_state []).1.player2_snake =
      [.tup 5 3, .tup 6 3, .tup 7 3] := by
  decide

/-- C3 (witness): the head-swap elimination theorem applied to the concrete
state `cHeadSwapState`. -/
theorem snake_headswap_mutual_elimination_witness :
    (cHeadSwapState.update_game_state []).1.player1_alive = false ∧
    (cHeadSwapState.update_game_state []).1.player2_alive = false ∧
    (cHeadSwapState.update_game_state []).1.game_over = true ∧
    (cHeadSwapState.update_game_state []).1.player1_snake = cHeadSwapState.player1_snake ∧
    (cHeadSwapState.update_game_state []).1.player2_snake = cHeadSwapState.player2_snake :=
  snake_headswap_mutual_elimination cHeadSwapState [] (.tup 5 5) (.tup 5 6)
    [.tup 5 4, .tup 5 3] [.tup 5 7, .tup 5 8] rfl (by decide) rfl rfl rfl rfl
    (by decide) (by decide)

/-- C4 (counterexample): reaching the turn cap with tied scores does not force
game over.  The snake tick that reaches `turn_count = 200` leaves the game
running, and a pong tick past `turn_count = 500` without a score leaves the
game running as well. -/
theorem turn_cap_not_reached_counterexample :
    c4SnakeState.player1_score = c4SnakeState.player2_score ∧
    (c4SnakeState.update_game_state []).1.turn_count = 200 ∧
    (c4SnakeState.update_game_state []).1.game_over = false ∧
    c4PongState.player1_score = c4PongState.player2_score ∧
    c4PongState.turn_count = 500 ∧
    (c4PongState.update_ball 1 0).1.turn_count = 501 ∧
    (c4PongState.update_ball 1 0).1.game_over = false := by
  decide

/-- C8 (counterexample): not every operation invoked on a finished game
reports failure: `drop_piece` on a finished game changes nothing but reports
success. -/
theorem drop_piece_after_game_over_reports_success :
    c8TetrisState.game_over = true ∧
    c8TetrisState.drop_piece c8TetrisState.player1_id (fun _ => PieceType.O) 3 =
      some (c8TetrisState, ⟨true, "Piece dropped", none, none⟩) := by
  decide

/-- C10 (counterexample): after the accepted requests up-then-left, player 1's
stored heading is the exact reverse of the heading it moved with, but the next
tick does not move the snake backwards: the prospective head hits the snake's
own second cell, so the snake is eliminated with its body unchanged. -/
theorem snake_reverse_bypass_counterexample :
    (c10SnakeState.move_snake 1 .up).2.success = true ∧
    ((c10SnakeState.move_snake 1 .up).1.move_snake 1 .left).2.success = true ∧
    ((c10SnakeState.move_snake 1 .up).1.move_snake 1 .left).1.player1_direction =
      Dir.opposite c10SnakeState.player1_direction ∧
    ((((c10SnakeState.move_snake 1 .up).1.move_snake 1 .left).1.update_game_state
        []).1.player1_alive = false) ∧
    ((((c10SnakeState.move_snake 1 .up).1.move_snake 1 .left).1.update_game_state
        []).1.player1_snake = c10SnakeState.player1_snake) := by
  decide

/-- C10 (amended): the no-reverse check only consults the stored heading, so
after two accepted heading changes the stored heading can be the exact reverse
of the snake's last motion; the next tick then computes the prospective head
one cell backwards, which lies on the snake's own second cell, and the snake
is eliminated with its body unchanged. -/
theorem snake_reverse_guard_bypass_amended
    (s : SnakeGame) (d1 d2 : Dir) (draws : List (Int × Int))
    (c0 c1 : PyCell) (rest : List PyCell)
    (hgo : s.game_over = false)
    (hne : (s.player2_id == s.player1_id) = false)
    (h1a : s.player1_alive = true)
    (hd1 : (d1 == s.player1_direction.opposite) = false)
    (hd2 : d2 = s.player1_direction.opposite)
    (hd21 : (d2 == d1.opposite) = false)
    (hb : s.player1_snake = c0 :: c1 :: rest)
    (hc1 : c1 = SnakeGame.newHead d2 c0) :
    (s.move_snake s.player1_id d1).2.success = true ∧
    ((s.move_snake s.player1_id d1).1.move_snake s.player1_id d2).2.success = true ∧
    ((s.move_snake s.player1_id d1).1.move_snake s.player1_id d2).1.player1_direction =
      s.player1_direction.opposite ∧
    ((((s.move_snake s.player1_id d1).1.move_snake s.player1_id d2).1.update_game_state
        draws).1.player1_alive = false) ∧
    ((((s.move_snake s.player1_id d1).1.move_snake s.player1_id d2).1.update_game_state
        draws).1.player1_snake = s.player1_snake) := by
  have e1 : s.move_snake s.player1_id d1 =
      ({s with player1_direction := d1}, ⟨true, "Direction changed to " ++ d1.str⟩) := by
    unfold SnakeGame.move_snake
    simp [hgo, h1a, hd1]
  have e2 : ({s with player1_direction := d1} : SnakeGame).move_snake s.player1_id d2 =
      ({s with player1_direction := d2}, ⟨true, "Direction changed to " ++ d2.str⟩) := by
    unfold SnakeGame.move_snake
    simp [hgo, h1a, hd21]
  rw [e1, e2]
  refine ⟨rfl, rfl, by simp [hd2], ?_, ?_⟩ <;>
  · -- the tick eliminates player 1 by self-collision, leaving the body unchanged
    have hm1 : (SnakeGame.move_player_snake {s with player1_direction := d2}
        s.player1_id draws).1 =
        {s with player1_direction := d2, player1_alive := false} := by
      have := move_player1_elim {s with player1_direction := d2} draws
        (by right; left
            simp [SnakeGame.headCell, hb, ← hc1, pyMem, pyEq_refl])
      simpa using this
    rcases hmp : SnakeGame.move_player_snake {s with player1_direction := d2}
        s.player1_id draws with ⟨ms, r1, ds1⟩
    rw [hmp] at hm1
    simp only at hm1
    subst hm1
    rw [h1a, hgo] at hmp
    unfold SnakeGame.update_game_state
    simp only [hgo, Bool.false_eq_true, if_false, h1a, if_true, hmp]
    cases hA2 : s.player2_alive with
    | false =>
      simp only [hA2, Bool.false_eq_true, if_false]
      simp [snake_check_fields, hb]
    | true =>
      simp only [hA2, if_true]
      have hpres := move_player2_preserves_p1
        {s with player1_direction := d2, player1_alive := false} ds1 (by simpa using hne)
      rcases hmp2 : SnakeGame.move_player_snake
          {s with player1_direction := d2, player1_alive := false}
          s.player2_id ds1 with ⟨ms2, r2, ds2⟩
      rw [hmp2] at hpres
      simp only at hpres
      rw [hA2, hgo, hb] at hmp2
      simp [hmp2, snake_check_fields, hpres.1, hpres.2.1, hb]

lemma move_preserves_basic (s : SnakeGame) (pid : Int) (draws : List (Int × Int))
    (hf : s.food_positions = []) :
    (SnakeGame.move_player_snake s pid draws).1.player1_score = s.player1_score ∧
    (SnakeGame.move_player_snake s pid draws).1.player2_score = s.player2_score ∧
    (SnakeGame.move_player_snake s pid draws).1.turn_count = s.turn_count ∧
    (SnakeGame.move_player_snake s pid draws).1.game_over = s.game_over ∧
    (SnakeGame.move_player_snake s pid draws).1.winner = s.winner ∧
    (SnakeGame.move_player_snake s pid draws).1.food_positions = [] ∧
    (SnakeGame.move_player_snake s pid draws).1.player1_id = s.player1_id ∧
    (SnakeGame.move_player_snake s pid draws).1.player2_id = s.player2_id := by
  unfold SnakeGame.move_player_snake
  simp only [hf, pyMem, List.any_nil, Bool.false_eq_true, if_false]
  refine ⟨?_, ?_, ?_, ?_, ?_, ?_, ?_, ?_⟩ <;> dsimp only <;> (repeat' split) <;> simp_all

lemma snake_check_cap (s : SnakeGame) (hcap : 200 ≤ s.turn_count)
    (hsc : s.player1_score = s.player2_score) :
    (SnakeGame.check_game_over s).game_over = true ∧
    (SnakeGame.check_game_over s).winner = none := by
  unfold SnakeGame.check_game_over
  split_ifs <;> simp_all

lemma pong_check_cap (s : PingPongGame) (hcap : 500 ≤ s.turn_count)
    (hsc : s.player1_score = s.player2_score) :
    (PingPongGame.check_game_over s).game_over = true ∧
    (PingPongGame.check_game_over s).winner = none := by
  unfold PingPongGame.check_game_over
  split_ifs <;> simp_all

lemma update_shape (s : SnakeGame) (draws : List (Int × Int))
    (hgo : s.game_over = false) (hf : s.food_positions = []) :
    ∃ s2 : SnakeGame, (s.update_game_state draws).1 =
      {SnakeGame.check_game_over s2 with
        turn_count := (SnakeGame.check_game_over s2).turn_count + 1} ∧
      s2.player1_score = s.player1_score ∧
      s2.player2_score = s.player2_score ∧
      s2.turn_count = s.turn_count := by
  unfold SnakeGame.update_game_state
  simp only [hgo, Bool.false_eq_true, if_false]
  rcases hmp1 : SnakeGame.move_player_snake s s.player1_id draws with ⟨m1, r1, ds1⟩
  have hb1 := move_preserves_basic s s.player1_id draws hf
  rw [hmp1] at hb1
  simp only at hb1
  cases ha1 : s.player1_alive with
  | true =>
    simp only [ha1, if_true, hmp1]
    cases ha2 : m1.player2_alive with
    | true =>
      rcases hmp2 : SnakeGame.move_player_snake m1 m1.player2_id ds1 with ⟨m2, r2, ds2⟩
      have hb2 := move_preserves_basic m1 m1.player2_id ds1 hb1.2.2.2.2.2.1
      rw [hmp2] at hb2
      simp only at hb2
      simp only [ha2, if_true, hmp2]
      exact ⟨m2, rfl, by rw [hb2.1, hb1.1], by rw [hb2.2.1, hb1.2.1],
        by rw [hb2.2.2.1, hb1.2.2.1]⟩
    | false =>
      simp only [ha2, Bool.false_eq_true, if_false]
      exact ⟨m1, rfl, hb1.1, hb1.2.1, hb1.2.2.1⟩
  | false =>
    simp only [ha1, Bool.false_eq_true, if_false]
    cases ha2 : s.player2_alive with
    | true =>
      rcases hmp2 : SnakeGame.move_player_snake s s.player2_id draws with ⟨m2, r2, ds2⟩
      have hb2 := move_preserves_basic s s.player2_id draws hf
      rw [hmp2] at hb2
      simp only at hb2
      simp only [ha2, if_true, hmp2]
      exact ⟨m2, rfl, hb2.1, hb2.2.1, hb2.2.2.1⟩
    | false =>
      simp only [ha2, Bool.false_eq_true, if_false]
      exact ⟨s, rfl, rfl, rfl, rfl⟩

/-- C4 (amended): the caps terminate the game one step later than claimed and,
for pong, only on a scoring tick.  Snake: any tick beginning with
`turn_count ≥ 200`, tied scores and no food ends with `gameOver = true` and no
winner.  Pong: a tick beginning with `turn_count ≥ 500` in which the
leading-by-one player 1 concedes a point (ball past the left edge, no paddle
hit) ends with `gameOver = true` and no winner. -/
theorem turn_cap_termination_amended :
    (∀ (s : SnakeGame) (draws : List (Int × Int)), s.game_over = false →
      200 ≤ s.turn_count → s.player1_score = s.player2_score →
      s.food_positions = [] →
      (s.update_game_state draws).1.game_over = true ∧
      (s.update_game_state draws).1.winner = none) ∧
    (∀ (s : PingPongGame) (rvx rvy : Int), s.game_over = false →
      s.ball_vel_x < 0 → s.ball_x + s.ball_vel_x ≤ 0 →
      ¬(s.player1_paddle_y ≤ PingPongGame.wallY s ∧
        PingPongGame.wallY s < s.player1_paddle_y + PingPongGame.paddle_height) →
      500 ≤ s.turn_count → s.player1_score = s.player2_score + 1 →
      (s.update_ball rvx rvy).1.game_over = true ∧
      (s.update_ball rvx rvy).1.winner = none) := by
  constructor
  · intro s draws hgo hcap hsc hf
    obtain ⟨s2, he, e1, e2, e3⟩ := update_shape s draws hgo hf
    rw [he]
    have := snake_check_cap s2 (by rw [e3]; exact hcap) (by rw [e1, e2, hsc])
    simpa using this
  · intro s rvx rvy hgo hvx hx hmiss hcap hsc
    unfold PingPongGame.update_ball
    simp only [hgo, Bool.false_eq_true, if_false]
    have hcol : PingPongGame.check_paddle_collision
        {s with ball_vel_y := PingPongGame.wallVelY s}
        (s.ball_x + s.ball_vel_x) (PingPongGame.wallY s) = none := by
      unfold PingPongGame.check_paddle_collision
      dsimp only
      rw [if_neg, if_neg]
      · rintro ⟨-, h2, -⟩
        omega
      · rintro ⟨-, -, h3, h4⟩
        exact hmiss ⟨h3, h4⟩
    rw [hgo] at hcol
    rw [hcol]
    rw [if_pos hx]
    have := pong_check_cap
      (PingPongGame.reset_ball
        {s with ball_vel_y := PingPongGame.wallVelY s,
                player2_score := s.player2_score + 1} rvx rvy)
      (by simp [PingPongGame.reset_ball]; exact hcap)
      (by simp [PingPongGame.reset_ball]; omega)
    rw [hgo] at this
    simpa using this

/-- C7: for a living player in a running game, requesting the direct reverse
of the stored heading is rejected and changes nothing, while any other heading
request (including re-selecting the current heading) is accepted and stored. -/
theorem snake_reverse_rejected_others_accepted
    (s : SnakeGame) (d : Dir) (hgo : s.game_over = false) :
    (s.player1_alive = true →
      (d = s.player1_direction.opposite →
        s.move_snake s.player1_id d = (s, ⟨false, "Cannot reverse direction"⟩)) ∧
      (d ≠ s.player1_direction.opposite →
        s.move_snake s.player1_id d =
          ({s with player1_direction := d},
           ⟨true, "Direction changed to " ++ d.str⟩))) ∧
    ((s.player2_id == s.player1_id) = false → s.player2_alive = true →
      (d = s.player2_direction.opposite →
        s.move_snake s.player2_id d = (s, ⟨false, "Cannot reverse direction"⟩)) ∧
      (d ≠ s.player2_direction.opposite →
        s.move_snake s.player2_id d =
          ({s with player2_direction := d},
           ⟨true, "Direction changed to " ++ d.str⟩))) := by
  constructor
  · intro h1a
    constructor
    · intro hd
      unfold SnakeGame.move_snake
      simp [hgo, h1a, hd]
    · intro hd
      have hd' : (d == s.player1_direction.opposite) = false := by
        simpa using hd
      unfold SnakeGame.move_snake
      simp [hgo, h1a, hd']
  · intro hne h2a
    constructor
    · intro hd
      unfold SnakeGame.move_snake
      simp [hgo, hne, h2a, hd]
    · intro hd
      have hd' : (d == s.player2_direction.opposite) = false := by
        simpa using hd
      unfold SnakeGame.move_snake
      simp [hgo, hne, h2a, hd']

/-- C7 (witness): rejection of the reverse and acceptance of other headings on
the concrete state `c3SnakeState` (player 1 heading right, player 2 heading
up). -/
theorem snake_reverse_rejected_others_accepted_witness :
    c3SnakeState.move_snake c3SnakeState.player1_id .left =
      (c3SnakeState, ⟨false, "Cannot reverse direction"⟩) ∧
    c3SnakeState.move_snake c3SnakeState.player1_id .right =
      ({c3SnakeState with player1_direction := .right},
       ⟨true, "Direction changed to right"⟩) ∧
    c3SnakeState.move_snake c3SnakeState.player2_id .down =
      (c3SnakeState, ⟨false, "Cannot reverse direction"⟩) ∧
    c3SnakeState.move_snake c3SnakeState.player2_id .left =
      ({c3SnakeState with player2_direction := .left},
       ⟨true, "Direction changed to left"⟩) := by
  refine ⟨?_, ?_, ?_, ?_⟩
  · exact ((snake_reverse_rejected_others_accepted c3SnakeState .left rfl).1 rfl).1 rfl
  · exact ((snake_reverse_rejected_others_accepted c3SnakeState .right rfl).1 rfl).2
      (by decide)
  · exact ((snake_reverse_rejected_others_accepted c3SnakeState .down rfl).2
      (by decide) rfl).1 rfl
  · exact ((snake_reverse_rejected_others_accepted c3SnakeState .left rfl).2
      (by decide) rfl).2 (by decide)

/-- C8 (amended): once `gameOver` is true every public move or tick operation
leaves the state unchanged; the move and tick operations report failure, while
the Tetris drop operation reports success despite changing nothing. -/
theorem post_terminal_operations_amended :
    (∀ (s : TetrisGame) (pid : Int) (dir : TetrisGame.TMove) (draw : PieceType),
      s.game_over = true →
      s.move_piece pid dir draw = (s, ⟨false, "Game is over", none, none⟩)) ∧
    (∀ (s : TetrisGame) (pid : Int) (draws : Nat → PieceType) (fuel : Nat),
      s.game_over = true →
      s.drop_piece pid draws (fuel + 1) =
        some (s, ⟨true, "Piece dropped", none, none⟩)) ∧
    (∀ (s : SnakeGame) (pid : Int) (d : Dir),
      s.game_over = true → s.move_snake pid d = (s, ⟨false, "Game is over"⟩)) ∧
    (∀ (s : SnakeGame) (draws : List (Int × Int)),
      s.game_over = true → s.update_game_state draws = (s, ⟨false, "Game is over"⟩)) ∧
    (∀ (s : PingPongGame) (pid : Int) (d : Dir),
      s.game_over = true → s.move_paddle pid d = (s, ⟨false, "Game is over"⟩)) ∧
    (∀ (s : PingPongGame) (rvx rvy : Int),
      s.game_over = true → s.update_ball rvx rvy = (s, ⟨false, "Game is over"⟩)) := by
  refine ⟨?_, ?_, ?_, ?_, ?_, ?_⟩
  · intro s pid dir draw h
    unfold TetrisGame.move_piece
    simp [h]
  · intro s pid draws fuel h
    unfold TetrisGame.drop_piece TetrisGame.dropAux TetrisGame.move_piece
    simp [h]
  · intro s pid d h
    unfold SnakeGame.move_snake
    simp [h]
  · intro s draws h
    unfold SnakeGame.update_game_state
    simp [h]
  · intro s pid d h
    unfold PingPongGame.move_paddle
    simp [h]
  · intro s rvx rvy h
    unfold PingPongGame.update_ball
    simp [h]

/-- C9: an accepted paddle move does not imply the paddle moved: at the
extreme offsets, `move_paddle` succeeds while leaving the offset unchanged. -/
theorem pong_paddle_clamped_at_bounds (s : PingPongGame) (hgo : s.game_over = false) :
    (s.player1_paddle_y = 0 →
      s.move_paddle s.player1_id .up = (s, ⟨true, "Paddle moved up"⟩)) ∧
    (s.player1_paddle_y = PingPongGame.field_height - PingPongGame.paddle_height →
      s.move_paddle s.player1_id .down = (s, ⟨true, "Paddle moved down"⟩)) ∧
    ((s.player2_id == s.player1_id) = false →
      (s.player2_paddle_y = 0 →
        s.move_paddle s.player2_id .up = (s, ⟨true, "Paddle moved up"⟩)) ∧
      (s.player2_paddle_y = PingPongGame.field_height - PingPongGame.paddle_height →
        s.move_paddle s.player2_id .down = (s, ⟨true, "Paddle moved down"⟩))) := by
  refine ⟨?_, ?_, fun hne => ⟨?_, ?_⟩⟩
  · intro h
    unfold PingPongGame.move_paddle
    simp only [hgo, Bool.false_eq_true, if_false, beq_self_eq_true, if_true]
    have : max 0 (s.player1_paddle_y - 1) = s.player1_paddle_y := by omega
    rw [this, ← hgo]
  · intro h
    unfold PingPongGame.move_paddle
    simp only [hgo, Bool.false_eq_true, if_false, beq_self_eq_true, if_true]
    have : min (PingPongGame.field_height - PingPongGame.paddle_height)
        (s.player1_paddle_y + 1) = s.player1_paddle_y := by
      rw [h]
      decide
    rw [this, ← hgo]
  · intro h
    unfold PingPongGame.move_paddle
    simp only [hgo, Bool.false_eq_true, if_false, hne, beq_self_eq_true, if_true]
    have : max 0 (s.player2_paddle_y - 1) = s.player2_paddle_y := by omega
    rw [this, ← hgo]
  · intro h
    unfold PingPongGame.move_paddle
    simp only [hgo, Bool.false_eq_true, if_false, hne, beq_self_eq_true, if_true]
    have : min (PingPongGame.field_height - PingPongGame.paddle_height)
        (s.player2_paddle_y + 1) = s.player2_paddle_y := by
      rw [h]
      decide
    rw [this, ← hgo]

/-- C8 (witness): post-terminal behavior on concrete finished games of all
three variants. -/
theorem post_terminal_operations_amended_witness :
    c8TetrisState.move_piece 1 .down .O =
      (c8TetrisState, ⟨false, "Game is over", none, none⟩) ∧
    c8TetrisState.drop_piece 1 (fun _ => PieceType.O) 3 =
      some (c8TetrisState, ⟨true, "Piece dropped", none, none⟩) ∧
    c8SnakeState.move_snake 1 .up = (c8SnakeState, ⟨false, "Game is over"⟩) ∧
    c8SnakeState.update_game_state [] = (c8SnakeState, ⟨false, "Game is over"⟩) ∧
    c8PongState.move_paddle 1 .up = (c8PongState, ⟨false, "Game is over"⟩) ∧
    c8PongState.update_ball 1 0 = (c8PongState, ⟨false, "Game is over"⟩) :=
  ⟨post_terminal_operations_amended.1 c8TetrisState 1 .down .O rfl,
   post_terminal_operations_amended.2.1 c8TetrisState 1 (fun _ => PieceType.O) 2 rfl,
   post_terminal_operations_amended.2.2.1 c8SnakeState 1 .up rfl,
   post_terminal_operations_amended.2.2.2.1 c8SnakeState [] rfl,
   post_terminal_operations_amended.2.2.2.2.1 c8PongState 1 .up rfl,
   post_terminal_operations_amended.2.2.2.2.2 c8PongState 1 0 rfl⟩

/-- C9 (witness): clamped paddle moves on the concrete state `c9PongState`
(player 1's paddle at the top, player 2's at the bottom). -/
theorem pong_paddle_clamped_at_bounds_witness :
    c9PongState.move_paddle c9PongState.player1_id .up =
      (c9PongState, ⟨true, "Paddle moved up"⟩) ∧
    c9PongState.move_paddle c9PongState.player2_id .down =
      (c9PongState, ⟨true, "Paddle moved down"⟩) :=
  ⟨(pong_paddle_clamped_at_bounds c9PongState rfl).1 rfl,
   ((pong_paddle_clamped_at_bounds c9PongState rfl).2.2 (by decide)).2 rfl⟩

/-- C4 (witness): the amended cap behavior on the concrete states
`c4SnakeState'` (tick 201, tied, no food) and `c4PongState'` (turn 500,
player 1 leading by one, ball about to cross the left edge). -/
theorem turn_cap_termination_amended_witness :
    (c4SnakeState'.update_game_state []).1.game_over = true ∧
    (c4SnakeState'.update_game_state []).1.winner = none ∧
    (c4PongState'.update_ball 1 0).1.game_over = true ∧
    (c4PongState'.update_ball 1 0).1.winner = none := by
  obtain ⟨h1, h2⟩ := turn_cap_termination_amended.1 c4SnakeState' [] rfl
    (by decide) rfl rfl
  obtain ⟨h3, h4⟩ := turn_cap_termination_amended.2 c4PongState' 1 0 rfl
    (by decide) (by decide) (by decide) (by decide) rfl
  exact ⟨h1, h2, h3, h4⟩

/-- C10 (witness): the reverse-guard bypass theorem applied to the concrete
state `c10SnakeState` with the request sequence up then left. -/
theorem snake_reverse_guard_bypass_amended_witness :
    (c10SnakeState.move_snake c10SnakeState.player1_id .up).2.success = true ∧
    ((c10SnakeState.move_snake c10SnakeState.player1_id .up).1.move_snake
        c10SnakeState.player1_id .left).2.success = true ∧
    ((c10SnakeState.move_snake c10SnakeState.player1_id .up).1.move_snake
        c10SnakeState.player1_id .left).1.player1_direction =
      c10SnakeState.player1_direction.opposite ∧
    ((((c10SnakeState.move_snake c10SnakeState.player1_id .up).1.move_snake
        c10SnakeState.player1_id .left).1.update_game_state []).1.player1_alive =
      false) ∧
    ((((c10SnakeState.move_snake c10SnakeState.player1_id .up).1.move_snake
        c10SnakeState.player1_id .left).1.update_game_state []).1.player1_snake =
      c10SnakeState.player1_snake) :=
  snake_reverse_guard_bypass_amended c10SnakeState .up .left []
    (.tup 7 3) (.tup 7 2) [.tup 7 1] rfl (by decide) rfl (by decide) rfl
    (by decide) rfl (by decide)

/-- C6: if the freshly spawned piece's fixed spawn placement (row 0, column 4,
rotation 0) is illegal on the post-lock board, the lock ends the game
immediately with the opponent as winner. -/
theorem tetris_blockout_ends_game (s : TetrisGame) (draw : PieceType) :
    (TetrisGame.is_valid_position
        (TetrisGame.clear_lines (TetrisGame.place_piece s.player1_board
          s.player1_current_piece s.player1_piece_pos s.player1_piece_rotation)).1
        s.player1_next_piece (0, 4) 0 = false →
      (s.place_current_piece s.player1_id draw).1.game_over = true ∧
      (s.place_current_piece s.player1_id draw).1.winner = some s.player2_id) ∧
    ((s.player2_id == s.player1_id) = false →
      TetrisGame.is_valid_position
        (TetrisGame.clear_lines (TetrisGame.place_piece s.player2_board
          s.player2_current_piece s.player2_piece_pos s.player2_piece_rotation)).1
        s.player2_next_piece (0, 4) 0 = false →
      (s.place_current_piece s.player2_id draw).1.game_over = true ∧
      (s.place_current_piece s.player2_id draw).1.winner = some s.player1_id) := by
  constructor
  · intro h
    unfold TetrisGame.place_current_piece
    simp [h]
  · intro hne h
    unfold TetrisGame.place_current_piece
    simp [hne, h]

lemma setCell_length (b : List (List Char)) (r c : Int) (ch : Char) :
    (TetrisGame.setCell b r c ch).length = b.length := by
  simp [TetrisGame.setCell]

lemma foldl_length_invariant {α : Type} (f : List (List Char) → α → List (List Char))
    (hf : ∀ b a, (f b a).length = b.length) :
    ∀ (l : List α) (b : List (List Char)), (l.foldl f b).length = b.length := by
  intro l
  induction l with
  | nil => intro b; rfl
  | cons a l ih =>
    intro b
    rw [List.foldl_cons, ih, hf]

lemma place_piece_length (b : List (List Char)) (p : Piece) (pos : Int × Int) (r : Nat) :
    (TetrisGame.place_piece b p pos r).length = b.length := by
  unfold TetrisGame.place_piece
  apply foldl_length_invariant
  intro b1 il
  apply foldl_length_invariant
  intro b2 jc
  dsimp only
  split
  · split
    · exact setCell_length b2 _ _ _
    · rfl
  · rfl

/-- C5: a lock that completes `k` full rows (counted on the board with the
piece written in) awards `{1: 40, 2: 100, 3: 300, 4: 1200}[k] × (level + 1)`
points (0 points for 0 rows); the completed rows are removed, the rows above
shift down, and empty rows are inserted at the top so the board keeps its
fixed height. -/
theorem tetris_lock_scoring_and_line_clear (s : TetrisGame) (draw : PieceType) :
    ((s.place_current_piece s.player1_id draw).1.player1_board =
        List.replicate (TetrisGame.board_height -
            ((TetrisGame.place_piece s.player1_board s.player1_current_piece
              s.player1_piece_pos s.player1_piece_rotation).filter
                (fun row => row.contains '.')).length) TetrisGame.emptyRow ++
          (TetrisGame.place_piece s.player1_board s.player1_current_piece
            s.player1_piece_pos s.player1_piece_rotation).filter
              (fun row => row.contains '.')) ∧
    (((TetrisGame.place_piece s.player1_board s.player1_current_piece
        s.player1_piece_pos s.player1_piece_rotation).filter
          (fun row => !row.contains '.')).length = 0 →
      (s.place_current_piece s.player1_id draw).1.player1_score = s.player1_score) ∧
    (∀ k : Nat,
      ((TetrisGame.place_piece s.player1_board s.player1_current_piece
        s.player1_piece_pos s.player1_piece_rotation).filter
          (fun row => !row.contains '.')).length = k →
      1 ≤ k → k ≤ 4 →
      (s.place_current_piece s.player1_id draw).1.player1_score =
        s.player1_score +
          (if k = 1 then 40 else if k = 2 then 100 else if k = 3 then 300
            else 1200) * ((s.player1_level : Int) + 1)) ∧
    (s.player1_board.length = TetrisGame.board_height →
      (s.place_current_piece s.player1_id draw).1.player1_board.length =
        TetrisGame.board_height) ∧
    ((s.player2_id == s.player1_id) = false →
      ((s.place_current_piece s.player2_id draw).1.player2_board =
          List.replicate (TetrisGame.board_height -
              ((TetrisGame.place_piece s.player2_board s.player2_current_piece
                s.player2_piece_pos s.player2_piece_rotation).filter
                  (fun row => row.contains '.')).length) TetrisGame.emptyRow ++
            (TetrisGame.place_piece s.player2_board s.player2_current_piece
              s.player2_piece_pos s.player2_piece_rotation).filter
                (fun row => row.contains '.')) ∧
      (((TetrisGame.place_piece s.player2_board s.player2_current_piece
          s.player2_piece_pos s.player2_piece_rotation).filter
            (fun row => !row.contains '.')).length = 0 →
        (s.place_current_piece s.player2_id draw).1.player2_score = s.player2_score) ∧
      (∀ k : Nat,
        ((TetrisGame.place_piece s.player2_board s.player2_current_piece
          s.player2_piece_pos s.player2_piece_rotation).filter
            (fun row => !row.contains '.')).length = k →
        1 ≤ k → k ≤ 4 →
        (s.place_current_piece s.player2_id draw).1.player2_score =
          s.player2_score +
            (if k = 1 then 40 else if k = 2 then 100 else if k = 3 then 300
              else 1200) * ((s.player2_level : Int) + 1)) ∧
      (s.player2_board.length = TetrisGame.board_height →
        (s.place_current_piece s.player2_id draw).1.player2_board.length =
          TetrisGame.board_height)) := by
  have hboard : (s.place_current_piece s.player1_id draw).1.player1_board =
      (TetrisGame.clear_lines (TetrisGame.place_piece s.player1_board
        s.player1_current_piece s.player1_piece_pos s.player1_piece_rotation)).1 := by
    unfold TetrisGame.place_current_piece
    simp only [beq_self_eq_true, if_true]
    split <;> rfl
  have hscore : (s.place_current_piece s.player1_id draw).1.player1_score =
      s.player1_score + TetrisGame.calculate_score
        (TetrisGame.clear_lines (TetrisGame.place_piece s.player1_board
          s.player1_current_piece s.player1_piece_pos s.player1_piece_rotation)).2
        s.player1_level := by
    unfold TetrisGame.place_current_piece
    simp only [beq_self_eq_true, if_true]
    split <;> rfl
  refine ⟨?_, ?_, ?_, ?_, ?_⟩
  · rw [hboard]
    rfl
  · intro hk
    rw [hscore]
    unfold TetrisGame.clear_lines
    dsimp only
    rw [hk]
    simp [TetrisGame.calculate_score]
  · intro k hk h1 h4
    rw [hscore]
    unfold TetrisGame.clear_lines
    dsimp only
    rw [hk]
    interval_cases k <;> simp [TetrisGame.calculate_score]
  · intro hlen
    rw [hboard]
    unfold TetrisGame.clear_lines
    dsimp only
    have hfle : ((TetrisGame.place_piece s.player1_board s.player1_current_piece
        s.player1_piece_pos s.player1_piece_rotation).filter
          (fun row => row.contains '.')).length ≤ TetrisGame.board_height := by
      calc ((TetrisGame.place_piece s.player1_board s.player1_current_piece
          s.player1_piece_pos s.player1_piece_rotation).filter
            (fun row => row.contains '.')).length
          ≤ (TetrisGame.place_piece s.player1_board s.player1_current_piece
              s.player1_piece_pos s.player1_piece_rotation).length :=
            List.length_filter_le _ _
        _ = TetrisGame.board_height := by rw [place_piece_length, hlen]
    rw [List.length_append, List.length_replicate]
    omega
  · intro hne
    have hboard2 : (s.place_current_piece s.player2_id draw).1.player2_board =
        (TetrisGame.clear_lines (TetrisGame.place_piece s.player2_board
          s.player2_current_piece s.player2_piece_pos s.player2_piece_rotation)).1 := by
      unfold TetrisGame.place_current_piece
      simp only [hne, Bool.false_eq_true, if_false, beq_self_eq_true, if_true]
      split <;> rfl
    have hscore2 : (s.place_current_piece s.player2_id draw).1.player2_score =
        s.player2_score + TetrisGame.calculate_score
          (TetrisGame.clear_lines (TetrisGame.place_piece s.player2_board
            s.player2_current_piece s.player2_piece_pos s.player2_piece_rotation)).2
          s.player2_level := by
      unfold TetrisGame.place_current_piece
      simp only [hne, Bool.false_eq_true, if_false, beq_self_eq_true, if_true]
      split <;> rfl
    refine ⟨?_, ?_, ?_, ?_⟩
    · rw [hboard2]
      rfl
    · intro hk
      rw [hscore2]
      unfold TetrisGame.clear_lines
      dsimp only
      rw [hk]
      simp [TetrisGame.calculate_score]
    · intro k hk h1 h4
      rw [hscore2]
      unfold TetrisGame.clear_lines
      dsimp only
      rw [hk]
      interval_cases k <;> simp [TetrisGame.calculate_score]
    · intro hlen
      rw [hboard2]
      unfold TetrisGame.clear_lines
      dsimp only
      have hfle : ((TetrisGame.place_piece s.player2_board s.player2_current_piece
          s.player2_piece_pos s.player2_piece_rotation).filter
            (fun row => row.contains '.')).length ≤ TetrisGame.board_height := by
        calc ((TetrisGame.place_piece s.player2_board s.player2_current_piece
            s.player2_piece_pos s.player2_piece_rotation).filter
              (fun row => row.contains '.')).length
            ≤ (TetrisGame.place_piece s.player2_board s.player2_current_piece
                s.player2_piece_pos s.player2_piece_rotation).length :=
              List.length_filter_le _ _
          _ = TetrisGame.board_height := by rw [place_piece_length, hlen]
      rw [List.length_append, List.length_replicate]
      omega

/-- C5 (witness): on `c5TetrisState` the lock completes exactly one row and
awards `40 × (level + 1) = 80` points, and the board keeps its 20 rows. -/
theorem tetris_lock_scoring_and_line_clear_witness :
    (c5TetrisState.place_current_piece c5TetrisState.player1_id
        PieceType.O).1.player1_score =
      c5TetrisState.player1_score + 40 * ((c5TetrisState.player1_level : Int) + 1) ∧
    (c5TetrisState.place_current_piece c5TetrisState.player1_id
        PieceType.O).1.player1_board.length = TetrisGame.board_height := by
  constructor
  · have h := (tetris_lock_scoring_and_line_clear c5TetrisState PieceType.O).2.2.1 1
      (by decide) (by decide) (by decide)
    simpa using h
  · exact (tetris_lock_scoring_and_line_clear c5TetrisState PieceType.O).2.2.2.1
      (by decide)

/-- C6 (witness): on `c6TetrisState` (spawn cells blocked) the lock ends the
game and declares player 2 the winner. -/
theorem tetris_blockout_ends_game_witness :
    (c6TetrisState.place_current_piece c6TetrisState.player1_id
        PieceType.O).1.game_over = true ∧
    (c6TetrisState.place_current_piece c6TetrisState.player1_id
        PieceType.O).1.winner = some c6TetrisState.player2_id :=
  (tetris_blockout_ends_game c6TetrisState PieceType.O).1 (by decide)
